import Mathlib

/-!
Shallow embedding of the gradient-tape core of `dfdx` (`src/gradients.rs`):
the `GradientTape` of deferred backward operations, the heterogeneous
`Gradients` store keyed by tensor identity, and the `Tape` capability with
its `OwnedTape` / `NoneTape` implementations.

Rust panics (`unwrap` on a missing map entry, a failed `downcast`, and the
`assert_ne!` identity check) are modelled as `Except` errors with the error
taxonomy the specification names: `lookup` for a missing entry,
`typeMismatch` for a failed downcast, `identityCollision` for the
`assert_ne!` in `mut_and_ref`.
-/

/-- Modelled from the spec: `UniqueId` is defined outside the provided
sources (`src/unique_id.rs` is not present); the spec describes it as an
opaque, copyable, totally-ordered token from a monotonic counter. Only its
decidable equality matters to the store, so it is modelled as `Nat`. -/
abbrev UniqueId : Type := Nat

/-- Type codes for the array payload types a tensor can declare via
`HasArrayType` (`f32`, `[f32; N]`, `[[f32; N]; M]`, ...). The scalar dtype
is modelled as `Int`: no claim involves floating-point arithmetic, only
storage and retrieval of whole buffers. -/
inductive ArrayTy : Type where
  | scalar : ArrayTy
  | arr : ArrayTy → Nat → ArrayTy
deriving DecidableEq

/-- The Lean type denoted by an array type code. -/
@[reducible]
def ArrayTy.denote : ArrayTy → Type
  | .scalar => Int
  | .arr t n => Fin n → t.denote

/-- Modelled from the spec: `AllocateZeros::zeros` (the `Cpu` device) is
defined outside the provided sources; the spec says it produces a
zero-filled buffer of the declared array type. -/
def ArrayTy.zeros : (t : ArrayTy) → t.denote
  | .scalar => (0 : Int)
  | .arr t _ => fun _ => t.zeros

/-- `Box<dyn Any>`: a value tagged with its runtime array type. -/
structure AnyBox : Type where
  ty : ArrayTy
  val : ty.denote

/-- `Box::downcast` / `downcast_ref` / `downcast_mut`: succeeds exactly
when the stored type tag matches the requested type. -/
def AnyBox.downcast (b : AnyBox) (t : ArrayTy) : Option t.denote :=
  if h : b.ty = t then some (h ▸ b.val) else none

/-- The error taxonomy of the spec for the panics in `gradients.rs`. -/
inductive GradError : Type where
  | lookup : GradError
  | typeMismatch : GradError
  | identityCollision : GradError
deriving DecidableEq

/-- An entity that implements `HasUniqueId + HasArrayType` (and, where
needed, `HasDevice`): it carries an identity and a declared array type,
which is all the store consults. -/
structure Entity : Type where
  id : UniqueId
  arrTy : ArrayTy

/-- `Gradients`: the identity-keyed heterogeneous store
(`HashMap<UniqueId, Box<dyn Any>>` modelled as a function map). -/
structure Gradients : Type where
  gradient_by_id : UniqueId → Option AnyBox

/-- `Gradients::default()`: the empty store. -/
def Gradients.empty : Gradients := ⟨fun _ => none⟩

/-- Insert (or overwrite) the entry for one identity. -/
def Gradients.insert (g : Gradients) (i : UniqueId) (b : AnyBox) : Gradients :=
  ⟨fun j => if j = i then some b else g.gradient_by_id j⟩

/-- `Gradients::mut_gradient`: `entry(*t.id()).or_insert_with(zeros)` then
`downcast_mut().unwrap()`. Returns the value the mutable reference points
at together with the store after the `or_insert_with`; a failed downcast
(panic in Rust) is `typeMismatch`. -/
def Gradients.mut_gradient (g : Gradients) (t : Entity) :
    Except GradError (t.arrTy.denote × Gradients) :=
  let box := (g.gradient_by_id t.id).getD ⟨t.arrTy, t.arrTy.zeros⟩
  match box.downcast t.arrTy with
  | some v => .ok (v, g.insert t.id box)
  | none => .error .typeMismatch

/-- Writing through the mutable reference returned by `mut_gradient`
(`*gradients.mut_gradient(&t) = v;`): the entry the reference points at is
replaced by `v` at the entity's array type. -/
def Gradients.set_gradient (g : Gradients) (t : Entity) (v : t.arrTy.denote) :
    Except GradError Gradients :=
  match g.mut_gradient t with
  | .ok (_, g') => .ok (g'.insert t.id ⟨t.arrTy, v⟩)
  | .error e => .error e

/-- `Gradients::ref_gradient`: `get(t.id()).unwrap()` then
`downcast_ref().unwrap()`. A missing entry is `lookup`, a failed downcast
is `typeMismatch`. -/
def Gradients.ref_gradient (g : Gradients) (t : Entity) :
    Except GradError t.arrTy.denote :=
  match g.gradient_by_id t.id with
  | none => .error .lookup
  | some box =>
    match box.downcast t.arrTy with
    | some v => .ok v
    | none => .error .typeMismatch

/-- `Gradients::remove`: `remove_entry(t.id()).unwrap()` then
`downcast().unwrap()`. Returns the owned buffer and the store without the
entry. -/
def Gradients.remove (g : Gradients) (t : Entity) :
    Except GradError (t.arrTy.denote × Gradients) :=
  match g.gradient_by_id t.id with
  | none => .error .lookup
  | some box =>
    match box.downcast t.arrTy with
    | some v => .ok (v, ⟨fun j => if j = t.id then none else g.gradient_by_id j⟩)
    | none => .error .typeMismatch

/-- `Gradients::mut_and_ref`: `assert_ne!(l.id(), r.id())`, then
`mut_gradient(l)` and `ref_gradient(r)` on the resulting store (the raw
pointer dance only changes how the borrows coexist, not which entries are
read or written). -/
def Gradients.mut_and_ref (g : Gradients) (l r : Entity) :
    Except GradError ((l.arrTy.denote × r.arrTy.denote) × Gradients) :=
  if l.id = r.id then .error .identityCollision
  else
    match g.mut_gradient l with
    | .error e => .error e
    | .ok (lv, g') =>
      match g'.ref_gradient r with
      | .error e => .error e
      | .ok rv => .ok ((lv, rv), g')

/-- A backward operation: a `FnOnce(&mut Gradients)`, modelled as a store
transformer. -/
def Op : Type := Gradients → Gradients

/-- `GradientTape`: the ordered list of recorded backward operations. -/
structure GradientTape : Type where
  operations : List Op

/-- `GradientTape::default()`: the empty tape. -/
def GradientTape.default : GradientTape := ⟨[]⟩

/-- `GradientTape::add_backward_op`: `self.operations.insert(0, op)` —
the operation goes to the front of the list. -/
def GradientTape.add_backward_op (tape : GradientTape) (op : Op) : GradientTape :=
  ⟨op :: tape.operations⟩

/-- `GradientTape::execute`: run every operation, in list order, against a
fresh default store. -/
def GradientTape.execute (tape : GradientTape) : Gradients :=
  tape.operations.foldl (fun g op => op g) Gradients.empty

/-- Record a whole sequence of operations, first element first. -/
def GradientTape.recordAll (tape : GradientTape) (ops : List Op) : GradientTape :=
  ops.foldl GradientTape.add_backward_op tape

/-- Spec-side formulation for the ordering claim: run a list of operations
in the order given, head first. -/
def specRunInOrder (ops : List Op) (g : Gradients) : Gradients :=
  ops.foldl (fun g op => op g) g

/-- `OwnedTape`: wraps one `GradientTape` (the `Box` is transparent). -/
structure OwnedTape : Type where
  tape : GradientTape

/-- `NoneTape`: holds nothing. -/
inductive NoneTape : Type where
  | mk : NoneTape

/-- `<OwnedTape as Tape>::OWNS_TAPE`. -/
def OwnedTape.OWNS_TAPE : Bool := true

/-- `<NoneTape as Tape>::OWNS_TAPE`. -/
def NoneTape.OWNS_TAPE : Bool := false

/-- `<OwnedTape as Tape>::add_backward_op`: forwards to the owned tape. -/
def OwnedTape.add_backward_op (t : OwnedTape) (op : Op) : OwnedTape :=
  ⟨t.tape.add_backward_op op⟩

/-- `<NoneTape as Tape>::add_backward_op`: the body is `{}`. -/
def NoneTape.add_backward_op (t : NoneTape) (_operation : Op) : NoneTape :=
  t

theorem AnyBox.downcast_self (t : ArrayTy) (v : t.denote) :
    AnyBox.downcast ⟨t, v⟩ t = some v := by
  simp [AnyBox.downcast]

theorem recordAll_operations (ops : List Op) (tape : GradientTape) :
    (tape.recordAll ops).operations = ops.reverse ++ tape.operations := by
  induction ops generalizing tape with
  | nil => simp [GradientTape.recordAll]
  | cons op rest ih =>
      simp [GradientTape.recordAll, List.foldl] at ih ⊢
      rw [ih]
      simp [GradientTape.add_backward_op]

/-- C1: recording N operations with `add_backward_op` and then calling
`execute` runs exactly the recorded operations in reverse-of-recording
order: the last-recorded operation runs first, the first-recorded last. -/
theorem execute_runs_in_reverse_recording_order (ops : List Op) :
    (GradientTape.default.recordAll ops).execute =
      specRunInOrder ops.reverse Gradients.empty := by
  show ((GradientTape.default.recordAll ops).operations.foldl (fun g op => op g)
      Gradients.empty) = _
  rw [recordAll_operations]
  simp [GradientTape.default, specRunInOrder]

/-- C2: for a well-typed entity (any stored entry under its identity has the
entity's declared array type), `mut_gradient` never fails; and when the
identity has no entry it allocates the zero-filled array of the declared
type, inserts it under the identity, and returns it. -/
theorem mut_gradient_zero_allocates_when_absent (g : Gradients) (t : Entity)
    (hwt : ∀ b, g.gradient_by_id t.id = some b → b.ty = t.arrTy) :
    (g.mut_gradient t).isOk = true ∧
    (g.gradient_by_id t.id = none →
      g.mut_gradient t =
        .ok (t.arrTy.zeros, g.insert t.id ⟨t.arrTy, t.arrTy.zeros⟩)) := by
  cases h : g.gradient_by_id t.id with
  | none =>
      have he : g.mut_gradient t =
          .ok (t.arrTy.zeros, g.insert t.id ⟨t.arrTy, t.arrTy.zeros⟩) := by
        simp [Gradients.mut_gradient, h, AnyBox.downcast_self]
      exact ⟨by rw [he]; rfl, fun _ => he⟩
  | some b =>
      obtain ⟨ty, val⟩ := b
      have hty : ty = t.arrTy := hwt ⟨ty, val⟩ h
      subst hty
      have he : g.mut_gradient t = .ok (val, g.insert t.id ⟨t.arrTy, val⟩) := by
        simp [Gradients.mut_gradient, h, AnyBox.downcast_self]
      refine ⟨by rw [he]; rfl, fun habs => ?_⟩
      exact Option.noConfusion habs

theorem mut_gradient_zero_allocates_when_absent_witness :
    Gradients.empty.gradient_by_id 0 = none ∧
    (Gradients.empty.mut_gradient ⟨0, .arr .scalar 3⟩).isOk = true ∧
    Gradients.empty.mut_gradient ⟨0, .arr .scalar 3⟩ =
      .ok ((ArrayTy.arr .scalar 3).zeros,
        Gradients.empty.insert 0 ⟨.arr .scalar 3, (ArrayTy.arr .scalar 3).zeros⟩) := by
  have h := mut_gradient_zero_allocates_when_absent Gradients.empty ⟨0, .arr .scalar 3⟩
    (fun b hb => nomatch hb)
  exact ⟨rfl, h.1, h.2 rfl⟩

/-- C3: writing a value through the reference returned by `mut_gradient`
and then reading with `ref_gradient` at the same identity and array type
returns exactly the written value. -/
theorem mut_then_ref_roundtrip (g : Gradients) (t : Entity) (v : t.arrTy.denote)
    (g' : Gradients) (h : g.set_gradient t v = .ok g') :
    g'.ref_gradient t = .ok v := by
  unfold Gradients.set_gradient at h
  cases hm : g.mut_gradient t with
  | error e => rw [hm] at h; exact absurd h (by simp)
  | ok p =>
      rw [hm] at h
      simp only [Except.ok.injEq] at h
      rw [← h]
      simp [Gradients.ref_gradient, Gradients.insert, AnyBox.downcast_self]

def c3Entity : Entity := ⟨7, .arr .scalar 3⟩

def c3Val : c3Entity.arrTy.denote :=
  fun i => if i.val = 0 then -4 else if i.val = 1 then 5 else -6

def c3Gradients : Gradients :=
  (Gradients.empty.insert 7
      ⟨.arr .scalar 3, (ArrayTy.arr .scalar 3).zeros⟩).insert 7
    ⟨.arr .scalar 3, c3Val⟩

theorem mut_then_ref_roundtrip_witness :
    Gradients.empty.set_gradient c3Entity c3Val = .ok c3Gradients ∧
    c3Gradients.ref_gradient c3Entity = .ok c3Val :=
  ⟨rfl, mut_then_ref_roundtrip Gradients.empty c3Entity c3Val c3Gradients rfl⟩

/-- C4: on an identity with no stored entry, `ref_gradient` fails with the
lookup error and `remove` likewise fails with the lookup error; neither
returns a default value. -/
theorem ref_gradient_and_remove_fail_lookup_when_absent (g : Gradients)
    (t : Entity) (h : g.gradient_by_id t.id = none) :
    g.ref_gradient t = .error .lookup ∧ g.remove t = .error .lookup := by
  constructor <;> simp [Gradients.ref_gradient, Gradients.remove, h]

theorem ref_gradient_and_remove_fail_lookup_when_absent_witness :
    Gradients.empty.gradient_by_id 5 = none ∧
    Gradients.empty.ref_gradient ⟨5, .scalar⟩ = .error .lookup ∧
    Gradients.empty.remove ⟨5, .scalar⟩ = .error .lookup := by
  have h := ref_gradient_and_remove_fail_lookup_when_absent Gradients.empty
    ⟨5, .scalar⟩ rfl
  exact ⟨rfl, h.1, h.2⟩

/-- C5: when the identity holds an entry of the entity's array type,
`remove` returns exactly the stored buffer, deletes the entry, and a
subsequent `ref_gradient` on the same identity fails with the lookup
error. -/
theorem remove_returns_stored_and_deletes (g : Gradients) (t : Entity)
    (v : t.arrTy.denote) (h : g.gradient_by_id t.id = some ⟨t.arrTy, v⟩) :
    g.remove t =
      .ok (v, ⟨fun j => if j = t.id then none else g.gradient_by_id j⟩) ∧
    (Gradients.mk fun j =>
        if j = t.id then none else g.gradient_by_id j).gradient_by_id t.id
      = none ∧
    Gradients.ref_gradient
        ⟨fun j => if j = t.id then none else g.gradient_by_id j⟩ t
      = .error .lookup := by
  refine ⟨?_, ?_, ?_⟩
  · simp [Gradients.remove, h, AnyBox.downcast_self]
  · simp
  · simp [Gradients.ref_gradient]

def c5Val : (ArrayTy.arr .scalar 3).denote :=
  fun i => if i.val = 0 then -4 else if i.val = 1 then 5 else -6

def c5Store : Gradients := Gradients.empty.insert 3 ⟨.arr .scalar 3, c5Val⟩

theorem remove_returns_stored_and_deletes_witness :
    c5Store.gradient_by_id 3 = some ⟨.arr .scalar 3, c5Val⟩ ∧
    c5Store.remove ⟨3, .arr .scalar 3⟩ =
      .ok (c5Val,
        ⟨fun j => if j = 3 then none else c5Store.gradient_by_id j⟩) ∧
    Gradients.ref_gradient
        ⟨fun j => if j = 3 then none else c5Store.gradient_by_id j⟩
        ⟨3, .arr .scalar 3⟩
      = .error .lookup := by
  have h := remove_returns_stored_and_deletes c5Store ⟨3, .arr .scalar 3⟩
    c5Val rfl
  exact ⟨rfl, h.1, h.2.2⟩

/-- C6: whenever the two entities carry the same identity, `mut_and_ref`
fails with the identity-collision error, for every store and for all array
types of the two entities. -/
theorem mut_and_ref_same_id_collides (g : Gradients) (l r : Entity)
    (h : l.id = r.id) :
    g.mut_and_ref l r = .error .identityCollision := by
  simp [Gradients.mut_and_ref, h]

theorem mut_and_ref_same_id_collides_witness :
    (Entity.mk 1 .scalar).id = (Entity.mk 1 (.arr .scalar 2)).id ∧
    (Gradients.empty.insert 1 ⟨.scalar, (0 : Int)⟩).mut_and_ref
        ⟨1, .scalar⟩ ⟨1, .arr .scalar 2⟩
      = .error .identityCollision :=
  ⟨rfl,
    mut_and_ref_same_id_collides (Gradients.empty.insert 1 ⟨.scalar, (0 : Int)⟩)
      ⟨1, .scalar⟩ ⟨1, .arr .scalar 2⟩ rfl⟩

/-- C7: executing a tape on which nothing was recorded yields the empty
store — it has no entries, and `mut_gradient` on it still works normally,
zero-allocating for any entity. -/
theorem execute_empty_tape :
    GradientTape.default.execute = Gradients.empty ∧
    (∀ i : UniqueId, GradientTape.default.execute.gradient_by_id i = none) ∧
    ∀ t : Entity, GradientTape.default.execute.mut_gradient t =
      .ok (t.arrTy.zeros,
        Gradients.empty.insert t.id ⟨t.arrTy, t.arrTy.zeros⟩) := by
  refine ⟨rfl, fun i => rfl, fun t => ?_⟩
  simp [GradientTape.execute, GradientTape.default, Gradients.mut_gradient,
    Gradients.empty, AnyBox.downcast_self]

/-- C9: `add_backward_op` on a `NoneTape` is a no-op that leaves the tape
state unchanged and records nothing, for every operation; on an
`OwnedTape` it records exactly that one operation at the front of the
owned tape's operation list. -/
theorem none_tape_noop_owned_tape_records (t : NoneTape) (o : OwnedTape)
    (op : Op) :
    t.add_backward_op op = t ∧
    (o.add_backward_op op).tape.operations = op :: o.tape.operations :=
  ⟨rfl, rfl⟩

/-- C10: for distinct identities, with the updating entity well typed, if
the read-side entity's identity has no stored entry then `mut_and_ref`
fails with the lookup error: the entry for `l` is lazily zero-allocated
but the entry for `r` is never allocated. -/
theorem mut_and_ref_absent_read_side_fails_lookup (g : Gradients)
    (l r : Entity) (hne : l.id ≠ r.id)
    (hwt : ∀ b, g.gradient_by_id l.id = some b → b.ty = l.arrTy)
    (hr : g.gradient_by_id r.id = none) :
    g.mut_and_ref l r = .error .lookup := by
  have hmut : ∃ lv g', g.mut_gradient l = .ok (lv, g') ∧
      g' = g.insert l.id ((g.gradient_by_id l.id).getD
        ⟨l.arrTy, l.arrTy.zeros⟩) := by
    cases hl : g.gradient_by_id l.id with
    | none =>
        refine ⟨l.arrTy.zeros, _, ?_, rfl⟩
        simp [Gradients.mut_gradient, hl, AnyBox.downcast_self]
    | some b =>
        obtain ⟨ty, val⟩ := b
        have hty : ty = l.arrTy := hwt ⟨ty, val⟩ hl
        subst hty
        refine ⟨val, _, ?_, rfl⟩
        simp [Gradients.mut_gradient, hl, AnyBox.downcast_self]
  obtain ⟨lv, g', hm, hg'⟩ := hmut
  have hrg : g'.ref_gradient r = .error .lookup := by
    have hnone : g'.gradient_by_id r.id = none := by
      rw [hg']
      simp only [Gradients.insert]
      rw [if_neg (fun hh => hne hh.symm)]
      exact hr
    simp [Gradients.ref_gradient, hnone]
  simp [Gradients.mut_and_ref, hne, hm, hrg]

theorem mut_and_ref_absent_read_side_fails_lookup_witness :
    (Entity.mk 1 .scalar).id ≠ (Entity.mk 2 (.arr .scalar 3)).id ∧
    Gradients.empty.gradient_by_id 2 = none ∧
    Gradients.empty.mut_and_ref ⟨1, .scalar⟩ ⟨2, .arr .scalar 3⟩
      = .error .lookup := by
  refine ⟨by decide, rfl, ?_⟩
  exact mut_and_ref_absent_read_side_fails_lookup Gradients.empty
    ⟨1, .scalar⟩ ⟨2, .arr .scalar 3⟩ (by decide) (fun b hb => nomatch hb) rfl
